import Mathlib

/-!
Shallow embedding of the MIND dashboard repository and proofs about it.

Covered source: the static credential store and role permission table
(src/auth.py), the login handler (src/utils, the auth handler file),
and the SQL query construction and row-set semantics of the role
dashboard pages (src/pages).  Machine floats (FLOAT64 scores) are
modelled as exact rationals; the bcrypt hash check is modelled as
comparison with the plaintext each stored hash was generated from,
since every hash in the store is produced by hashing that plaintext at
load time.
-/

namespace MindDash

/-- One entry of the static credential store `USERS` in src/auth.py.
The bcrypt password hash field is modelled by the plaintext it hashes
(the literal passed to `bcrypt.hashpw` at load time). -/
structure UserEntry where
  name : String
  role : String
  storedSecret : String
  departments : List String
  cohorts : List String
  user_id : Option String := none
  deriving DecidableEq, Repr

/-- The `USERS` mapping of src/auth.py, key order as written there. -/
def USERS : List (String × UserEntry) :=
  [ ("admin@mind.edu",
     { name := "System Administrator", role := "admin", storedSecret := "mind2024",
       departments := ["All"], cohorts := ["All"] }),
    ("dev@mind.edu",
     { name := "Development Team", role := "developer", storedSecret := "mind2024",
       departments := ["IT"], cohorts := ["All"] }),
    ("faculty@mind.edu",
     { name := "Dr. Sarah Johnson", role := "faculty", storedSecret := "mind2024",
       departments := ["Computer Science", "Engineering"], cohorts := ["2024", "2025"] }),
    ("student@mind.edu",
     { name := "John Smith", role := "student", storedSecret := "mind2024",
       departments := ["Computer Science"], cohorts := ["2025"],
       user_id := some "550e8400-e29b-41d4-a716-446655440000" }) ]

/-- One role permission record of `ROLE_PERMISSIONS` in src/auth.py. -/
structure RolePermissions where
  pages : List String
  can_view_all_users : Bool
  can_modify_settings : Bool
  can_view_telemetry : Bool
  can_export_data : Bool
  deriving DecidableEq, Repr

/-- The `ROLE_PERMISSIONS` mapping of src/auth.py. -/
def ROLE_PERMISSIONS : List (String × RolePermissions) :=
  [ ("admin",
     { pages := ["Admin", "Developer", "Faculty", "Student"],
       can_view_all_users := true, can_modify_settings := true,
       can_view_telemetry := true, can_export_data := true }),
    ("developer",
     { pages := ["Developer"],
       can_view_all_users := false, can_modify_settings := false,
       can_view_telemetry := true, can_export_data := true }),
    ("faculty",
     { pages := ["Faculty"],
       can_view_all_users := false, can_modify_settings := false,
       can_view_telemetry := false, can_export_data := true }),
    ("student",
     { pages := ["Student"],
       can_view_all_users := false, can_modify_settings := false,
       can_view_telemetry := false, can_export_data := false }) ]

/-- src/auth.py `get_user_permissions`: dictionary lookup with the empty
dict as default; the empty dict is modelled as `none`. -/
def get_user_permissions (role : String) : Option RolePermissions :=
  ROLE_PERMISSIONS.lookup role

/-- The page list read off a permission record by `can_access_page`
(Python `permissions.get` with the empty list as default, which is what
the empty dict of an unknown role yields). -/
def permission_pages : Option RolePermissions → List String
  | some p => p.pages
  | none => []

/-- src/auth.py `can_access_page`: membership of the page in the page
list of the permission record for the role. -/
def can_access_page (role page : String) : Bool :=
  decide (page ∈ permission_pages (get_user_permissions role))

/-- Model of `bcrypt.checkpw` against a stored hash: the check succeeds
exactly when the submitted password equals the plaintext the stored
hash was generated from. -/
def checkpw (password storedSecret : String) : Bool :=
  password == storedSecret

/-- Auth handler `verify_password`: unknown email fails closed, known
email checks the password against the stored hash. -/
def verify_password (email password : String) : Bool :=
  match USERS.lookup email with
  | none => false
  | some u => checkpw password u.storedSecret

/-- The Streamlit session fields the auth handler manages. -/
structure SessionState where
  authenticated : Bool
  user_email : Option String
  user_name : Option String
  user_role : Option String
  deriving DecidableEq, Repr

/-- Auth handler `initialize_session_state` result: anonymous session. -/
def initialSession : SessionState :=
  { authenticated := false, user_email := none, user_name := none, user_role := none }

/-- Auth handler `login`: on a successful `verify_password` it binds the
matched identity to the session and reports true, otherwise it leaves
the session unchanged and reports false. -/
def login (s : SessionState) (email password : String) : SessionState × Bool :=
  match USERS.lookup email with
  | some u =>
      if checkpw password u.storedSecret then
        ({ authenticated := true, user_email := some email,
           user_name := some u.name, user_role := some u.role }, true)
      else (s, false)
  | none => (s, false)

/-- Auth handler `logout`: clears every session field; idempotent. -/
def logout (_s : SessionState) : SessionState :=
  { authenticated := false, user_email := none, user_name := none, user_role := none }

/-- The user-visible outcome of a login attempt. -/
inductive LoginFeedback where
  | success (message : String)
  | failure (message : String)
  deriving DecidableEq, Repr

/-- Auth handler `show_login_page` submit branch: on success a welcome
message with the session name, on failure the fixed string shown by
`st.error`, the same string for an unknown email and for a wrong
password on a known email. -/
def show_login_feedback (s : SessionState) (email password : String) : LoginFeedback :=
  let r := login s email password
  if r.2 then
    LoginFeedback.success ("Welcome, " ++ (r.1.user_name.getD "") ++ "!")
  else
    LoginFeedback.failure "Invalid email or password"

/-- One row of the warehouse `grades` table as the dashboard queries
read it: the learner key column `user` and the nullable FLOAT64 score
`final_score`, modelled as an exact rational. -/
structure GradeRow where
  user : String
  final_score : Option ℚ
  deriving DecidableEq, Repr

/-- One row of the warehouse `user` table as the dashboard queries read
it. -/
structure UserRow where
  user_id : String
  name : String
  department : String
  deriving DecidableEq, Repr

/-- True when the string contains no single quote character (code
point 39), so that interpolating it between quotes in SQL text yields
one string literal denoting exactly that value. -/
def quoteFree (s : String) : Bool :=
  s.toList.all (fun c => c.toNat != 39)

/-- A single quote character, as a string, for assembling SQL text. -/
def sqlQuote : String := String.singleton (Char.ofNat 39)

/-- Python str.lower applied per character (the Faculty search text is
lowered before interpolation at line 432). -/
def lowerStr (s : String) : String := String.mk (s.toList.map Char.toLower)

/-- The `DATASET_ID` constant shared by the dashboard pages. -/
def DATASET_ID : String := "gen-lang-client-0625543859.mind_analytics"

/-- A query as handed to the warehouse client: the SQL text and the
ordered bound-parameter list.  Every `run_query` helper in src/pages
passes a bare SQL string to `client.query`, so the parameter list of
every emitted query is empty. -/
structure QueryDescriptor where
  sql : String
  params : List String
  deriving DecidableEq, Repr

/-- Faculty page line 432: the free-text search fragment, built by
f-string interpolation of the lowered search text; an empty search
yields the empty fragment (Python truthiness of the string). -/
def search_where (search_student : String) : String :=
  if search_student = "" then ""
  else "AND LOWER(u.name) LIKE " ++ sqlQuote ++ "%" ++ lowerStr search_student ++ "%" ++ sqlQuote

/-- Faculty page line 157: the department filter fragment, f-string
interpolation of the selected department unless it is All. -/
def dept_where (selected_dept : String) : String :=
  if selected_dept = "All" then ""
  else "AND u.department = " ++ sqlQuote ++ selected_dept ++ sqlQuote

/-- Faculty page lines 434 to 449: the student performance query of the
Student Performance tab; the page passes one SQL string to `run_query`
and binds no parameters. -/
def student_performance_query (dept search_frag sort_clause : String) : QueryDescriptor :=
  { sql := "SELECT u.name as student_name, u.department, u.role, COUNT(g._id) as attempts, "
      ++ "ROUND(AVG(g.final_score), 2) as avg_score, "
      ++ "ROUND(MIN(g.final_score), 2) as min_score, "
      ++ "ROUND(MAX(g.final_score), 2) as max_score, "
      ++ "MAX(g.timestamp) as last_activity "
      ++ "FROM `" ++ DATASET_ID ++ ".grades` g "
      ++ "JOIN `" ++ DATASET_ID ++ ".user` u ON g.user = u.user_id "
      ++ "WHERE g.final_score IS NOT NULL " ++ dept ++ " " ++ search_frag ++ " "
      ++ "GROUP BY u.user_id, u.name, u.department, u.role "
      ++ "ORDER BY " ++ sort_clause,
    params := [] }

/-- Developer page lines 780 to 785: the trace debugger lookup; the
trace id taken from session state is interpolated into the SQL text,
no parameters bound. -/
def trace_lookup_query (trace_id : String) : QueryDescriptor :=
  { sql := "SELECT * FROM `" ++ DATASET_ID ++ ".backend_telemetry` "
      ++ "WHERE trace_id = " ++ sqlQuote ++ trace_id ++ sqlQuote ++ " "
      ++ "ORDER BY start_timestamp",
    params := [] }

/-- Faculty page lines 175 to 181: the submissions count over the
trailing window; the day count is interpolated into an INTERVAL
literal inside the SQL text, no parameters bound. -/
def submissions_window_query (days : Nat) (dept : String) : QueryDescriptor :=
  { sql := "SELECT COUNT(*) as count FROM `" ++ DATASET_ID ++ ".grades` g "
      ++ "JOIN `" ++ DATASET_ID ++ ".user` u ON g.user = u.user_id "
      ++ "WHERE g.timestamp >= TIMESTAMP_SUB(CURRENT_TIMESTAMP(), INTERVAL "
      ++ toString days ++ " DAY) " ++ dept,
    params := [] }

/-- Developer page lines 253 to 258: the request volume count over the
trailing window; the day count is interpolated into an INTERVAL
literal inside the SQL text, no parameters bound. -/
def request_volume_query (days : Nat) : QueryDescriptor :=
  { sql := "SELECT COUNT(*) as count FROM `" ++ DATASET_ID ++ ".backend_telemetry` "
      ++ "WHERE created_at >= TIMESTAMP_SUB(CURRENT_TIMESTAMP(), INTERVAL "
      ++ toString days ++ " DAY)",
    params := [] }

/-- Row set selected by the student overview query (Student page lines
329 to 338): WHERE g.user = <id> AND g.final_score IS NOT NULL.  The
student id is interpolated into the SQL text; for a `quoteFree` id the
resulting SQL denotes exactly this filter. -/
def student_overview_rows (grades : List GradeRow) (student_user_id : String) : List GradeRow :=
  grades.filter (fun g => g.user == student_user_id && g.final_score.isSome)

/-- The non-null scores of one learner: the rows passing
WHERE g.user = <uid> AND g.final_score IS NOT NULL. -/
def scoresOf (grades : List GradeRow) (uid : String) : List ℚ :=
  (student_overview_rows grades uid).filterMap (fun g => g.final_score)

/-- AVG(final_score) within one group: NULL over the empty input,
otherwise the arithmetic mean. -/
def meanScore (grades : List GradeRow) (uid : String) : Option ℚ :=
  let l := scoresOf grades uid
  if l.length = 0 then none else some (l.sum / l.length)

/-- BigQuery ROUND(x, 2): rounding half away from zero at two decimal
places. -/
def bqRound2 (q : ℚ) : ℚ :=
  if q < 0 then -((⌊-q * 100 + 1/2⌋ : ℚ) / 100)
  else (⌊q * 100 + 1/2⌋ : ℚ) / 100

/-- At-risk roster (Faculty page lines 561 to 576): grades joined to
users on g.user = u.user_id, WHERE g.final_score IS NOT NULL, GROUP BY
learner, HAVING avg_score < threshold — where the `avg_score` alias in
the HAVING clause is ROUND(AVG(g.final_score), 2).  Modelled as the set
of grouped learner keys passing the HAVING clause; the department
filter is All and the output ordering is not modelled (the claim is
about the returned set). -/
def at_risk_roster (users : List UserRow) (grades : List GradeRow) (threshold : ℚ) : List String :=
  (users.map (fun u => u.user_id)).filter (fun uid =>
    match meanScore grades uid with
    | none => false
    | some m => decide (bqRound2 m < threshold))

/-- The learner keys the top performers query groups over: user ids
with at least one non-null-scored grade row after the join (Faculty
page lines 339 to 351 and Admin page lines 773 to 785). -/
def grouped_learners (users : List UserRow) (grades : List GradeRow) : List String :=
  (users.map (fun u => u.user_id)).filter (fun uid => (meanScore grades uid).isSome)

/-- The `avg_score` column of the top performers query:
ROUND(AVG(g.final_score), 2) of the group (only applied to grouped
learners, which always have a mean). -/
def rounded_mean (grades : List GradeRow) (uid : String) : ℚ :=
  match meanScore grades uid with
  | some m => bqRound2 m
  | none => 0

/-- Admissible output of the top performers query: its ORDER BY clause
is `avg_score DESC` with no secondary key, so the warehouse may return
any permutation of the grouped learners that is sorted by rounded mean
descending, truncated by the LIMIT. -/
def top_performers_admissible (users : List UserRow) (grades : List GradeRow)
    (limit : Nat) (result : List String) : Prop :=
  ∃ perm : List String, perm.Perm (grouped_learners users grades) ∧
    perm.Sorted (fun a b => rounded_mean grades a ≥ rounded_mean grades b) ∧
    result = perm.take limit

/-- Result rows of the class average query (Faculty page lines 188 to
197): an aggregate SELECT without GROUP BY yields exactly one row,
holding ROUND(AVG(final_score), 2) over the non-null scores, NULL when
there are none. -/
def class_average_result (grades : List GradeRow) : List (Option ℚ) :=
  [(let l := (grades.filter (fun g => g.final_score.isSome)).filterMap (fun g => g.final_score)
    if l.length = 0 then none else some (bqRound2 (l.sum / l.length)))]

/-- Python one-decimal float formatting of a fetched average, as in the
f-string of Faculty page line 195: a NULL average reaches pandas as NaN
and formats as nan.  For present non-negative values the half-away
rounding here stands in for Python float formatting; only the NULL
branch is load-bearing for the claims. -/
def format_avg_pct (v : Option ℚ) : String :=
  match v with
  | none => "nan%"
  | some q =>
      let n : Int := ⌊q * 10 + 1/2⌋
      toString (n / 10) ++ "." ++ toString (n % 10) ++ "%"

/-- The Class Average metric as the Faculty overview renders it
(Faculty page lines 188 to 197): N/A only when the query failed
(`none`) or returned no rows; otherwise the first row value goes
through the numeric format path. -/
def class_average_metric (queryResult : Option (List (Option ℚ))) : String :=
  match queryResult with
  | none => "N/A"
  | some [] => "N/A"
  | some (v :: _) => format_avg_pct v

/-- One entry of the Student page sidebar selector list (Student page
lines 268 to 279): a learner with at least one graded submission. -/
structure StudentChoice where
  user_id : String
  name : String
  deriving DecidableEq, Repr

/-- Student page lines 261 to 304: how the page binds the learner id.
The selectbox defaults to index 0, so the page binds the first listed
learner; the logged-in identity and its optional linked learner id are
never consulted (lines 43 to 46 discard them).  Only an empty selector
list leaves the id unset. -/
def resolve_student_id (_sessionUserId : Option String) (students : List StudentChoice) :
    Option String :=
  match students with
  | [] => none
  | s :: _ => some s.user_id

/-- Student page lines 309 to 312: the page stops with an error message
only when no learner id was resolved; otherwise it proceeds with the
resolved id. -/
def student_page_proceeds (resolved : Option String) : Bool :=
  resolved.isSome

/-- Example data: two learners with graded rows, for exercising the
student scope. -/
def demoGrades : List GradeRow := [⟨"u-alice", some 80⟩, ⟨"u-bob", some 70⟩]

/-- Example data: a quote-bearing search text for the Faculty search
filter. -/
def searchVal : String := "O" ++ sqlQuote ++ "Brien"

/-- Example data: a quote-bearing trace id for the trace debugger. -/
def traceVal : String := "t-1" ++ sqlQuote ++ "x"

/-- Example data: one learner whose mean score is 59.995, just below
the threshold 60 but rounding up to it. -/
def riskUsers : List UserRow := [⟨"u1", "Ann", "CS"⟩]

/-- Grade rows giving learner u1 the mean (59.99 + 60) / 2 = 59.995. -/
def riskGrades : List GradeRow := [⟨"u1", some (5999/100)⟩, ⟨"u1", some 60⟩]

/-- Example data: the three learners of the spec scenario scoring 55,
60 and 65. -/
def scenUsers : List UserRow := [⟨"uA", "A", "CS"⟩, ⟨"uB", "B", "CS"⟩, ⟨"uC", "C", "CS"⟩]

/-- Grade rows of the spec scenario: scores 55, 60, 65. -/
def scenGrades : List GradeRow := [⟨"uA", some 55⟩, ⟨"uB", some 60⟩, ⟨"uC", some 65⟩]

/-- Example data: learners for the top performers scenario A:90, B:85,
C:85 with identifiers in ascending order uA < uB < uC. -/
def topUsers : List UserRow := [⟨"uA", "A", "CS"⟩, ⟨"uB", "B", "CS"⟩, ⟨"uC", "C", "CS"⟩]

/-- Grade rows of the top performers scenario: A scores 90, B and C tie
at 85. -/
def topGrades : List GradeRow := [⟨"uA", some 90⟩, ⟨"uB", some 85⟩, ⟨"uC", some 85⟩]

/-- Example data: a warehouse slice with one ungraded submission and no
graded attempt. -/
def noGradedRows : List GradeRow := [⟨"u1", none⟩]

/-- Example data: the selector list with two learners, Alice first. -/
def demoStudents : List StudentChoice := [⟨"u-alice", "Alice"⟩, ⟨"u-bob", "Bob"⟩]

/-- The static role/page table of src/auth.py flattened to pairs: every
(role, page) combination `ROLE_PERMISSIONS` allows. -/
def ROLE_PAGE_TABLE : List (String × String) :=
  [("admin", "Admin"), ("admin", "Developer"), ("admin", "Faculty"), ("admin", "Student"),
   ("developer", "Developer"), ("faculty", "Faculty"), ("student", "Student")]

theorem bqRound2_natCast (n : Nat) : bqRound2 (n : ℚ) = n := by
  have h0 : ¬ ((n : ℚ) < 0) := not_lt.mpr (by positivity)
  rw [bqRound2, if_neg h0]
  have hf : ⌊(n : ℚ) * 100 + 1/2⌋ = (100 * n : ℤ) := by
    rw [Int.floor_eq_iff]
    constructor
    · push_cast; linarith
    · push_cast; linarith
  rw [hf]
  push_cast
  ring

theorem bqRound2_eval (q : ℚ) (n : Int) (h0 : 0 ≤ q)
    (h1 : (n : ℚ) ≤ q * 100 + 1/2) (h2 : q * 100 + 1/2 < n + 1) :
    bqRound2 q = (n : ℚ) / 100 := by
  rw [bqRound2, if_neg (not_lt.mpr h0), Int.floor_eq_iff.mpr ⟨h1, h2⟩]

theorem rounded_mean_eval (grades : List GradeRow) (uid : String) (m : ℚ)
    (h : meanScore grades uid = some m) : rounded_mean grades uid = bqRound2 m := by
  rw [rounded_mean, h]

theorem rounded_mean_topA : rounded_mean topGrades "uA" = 90 := by
  rw [rounded_mean_eval _ _ 90 (by simp [meanScore, scoresOf, student_overview_rows, topGrades])]
  exact_mod_cast bqRound2_natCast 90

theorem rounded_mean_topB : rounded_mean topGrades "uB" = 85 := by
  rw [rounded_mean_eval _ _ 85 (by simp [meanScore, scoresOf, student_overview_rows, topGrades])]
  exact_mod_cast bqRound2_natCast 85

theorem rounded_mean_topC : rounded_mean topGrades "uC" = 85 := by
  rw [rounded_mean_eval _ _ 85 (by simp [meanScore, scoresOf, student_overview_rows, topGrades])]
  exact_mod_cast bqRound2_natCast 85

theorem sorted_top_acb :
    List.Sorted (fun a b => rounded_mean topGrades a ≥ rounded_mean topGrades b)
      ["uA", "uC", "uB"] := by
  simp [List.sorted_cons, rounded_mean_topA, rounded_mean_topB, rounded_mean_topC]
  norm_num

theorem sorted_top_abc :
    List.Sorted (fun a b => rounded_mean topGrades a ≥ rounded_mean topGrades b)
      ["uA", "uB", "uC"] := by
  simp [List.sorted_cons, rounded_mean_topA, rounded_mean_topB, rounded_mean_topC]
  norm_num

theorem can_access_page_iff (role page : String) :
    can_access_page role page = true ↔ (role, page) ∈ ROLE_PAGE_TABLE := by
  by_cases h1 : role = "admin"
  · subst h1
    simp [can_access_page, get_user_permissions, ROLE_PERMISSIONS, List.lookup,
      permission_pages, ROLE_PAGE_TABLE, Prod.ext_iff]
  by_cases h2 : role = "developer"
  · subst h2
    simp [can_access_page, get_user_permissions, ROLE_PERMISSIONS, List.lookup,
      permission_pages, ROLE_PAGE_TABLE, Prod.ext_iff]
  by_cases h3 : role = "faculty"
  · subst h3
    simp [can_access_page, get_user_permissions, ROLE_PERMISSIONS, List.lookup,
      permission_pages, ROLE_PAGE_TABLE, Prod.ext_iff]
  by_cases h4 : role = "student"
  · subst h4
    simp [can_access_page, get_user_permissions, ROLE_PERMISSIONS, List.lookup,
      permission_pages, ROLE_PAGE_TABLE, Prod.ext_iff]
  · have e1 : (role == "admin") = false := beq_eq_false_iff_ne.mpr h1
    have e2 : (role == "developer") = false := beq_eq_false_iff_ne.mpr h2
    have e3 : (role == "faculty") = false := beq_eq_false_iff_ne.mpr h3
    have e4 : (role == "student") = false := beq_eq_false_iff_ne.mpr h4
    simp [can_access_page, get_user_permissions, ROLE_PERMISSIONS, List.lookup,
      permission_pages, ROLE_PAGE_TABLE, Prod.ext_iff, e1, e2, e3, e4, h1, h2, h3, h4]

theorem admin_superset_aux (role page : String) (h : can_access_page role page = true) :
    can_access_page "admin" page = true := by
  have hm := (can_access_page_iff role page).1 h
  rw [can_access_page_iff]
  simp [ROLE_PAGE_TABLE, Prod.ext_iff] at hm ⊢
  tauto

theorem unknown_role_lookup (role : String)
    (h1 : role ≠ "admin") (h2 : role ≠ "developer")
    (h3 : role ≠ "faculty") (h4 : role ≠ "student") :
    get_user_permissions role = none := by
  have e1 : (role == "admin") = false := beq_eq_false_iff_ne.mpr h1
  have e2 : (role == "developer") = false := beq_eq_false_iff_ne.mpr h2
  have e3 : (role == "faculty") = false := beq_eq_false_iff_ne.mpr h3
  have e4 : (role == "student") = false := beq_eq_false_iff_ne.mpr h4
  simp [get_user_permissions, ROLE_PERMISSIONS, List.lookup, e1, e2, e3, e4]

set_option maxRecDepth 10000 in
/-- C1: the code does not bind filter values as parameters.  For the
quote-bearing search text the Faculty student performance query is
emitted with an empty parameter list and the lowered value embedded
literally in the SQL text, and the Developer trace lookup likewise
embeds the quote-bearing trace id literally with no parameters.  This
contradicts the claim that every user-supplied filter value appears
only as a bound parameter. -/
theorem filter_values_interpolated :
    (student_performance_query (dept_where "All") (search_where searchVal) "avg_score DESC").params
      = [] ∧
    (∃ pre post,
      (student_performance_query (dept_where "All") (search_where searchVal) "avg_score DESC").sql
        = pre ++ ("o" ++ sqlQuote ++ "brien") ++ post) ∧
    (trace_lookup_query traceVal).params = [] ∧
    (∃ pre post, (trace_lookup_query traceVal).sql = pre ++ traceVal ++ post) := by
  refine ⟨rfl, ⟨?_, ?_, ?_⟩, rfl, ⟨?_, ?_, ?_⟩⟩
  · exact "SELECT u.name as student_name, u.department, u.role, COUNT(g._id) as attempts, ROUND(AVG(g.final_score), 2) as avg_score, ROUND(MIN(g.final_score), 2) as min_score, ROUND(MAX(g.final_score), 2) as max_score, MAX(g.timestamp) as last_activity FROM `gen-lang-client-0625543859.mind_analytics.grades` g JOIN `gen-lang-client-0625543859.mind_analytics.user` u ON g.user = u.user_id WHERE g.final_score IS NOT NULL  AND LOWER(u.name) LIKE " ++ sqlQuote ++ "%"
  · exact "%" ++ sqlQuote ++ " GROUP BY u.user_id, u.name, u.department, u.role ORDER BY avg_score DESC"
  · rfl
  · exact "SELECT * FROM `gen-lang-client-0625543859.mind_analytics.backend_telemetry` WHERE trace_id = " ++ sqlQuote
  · exact sqlQuote ++ " ORDER BY start_timestamp"
  · rfl

/-- C2: the student overview row set is scoped to the bound learner
identifier: every returned row carries that identifier and no row of
another learner is returned.  The quote-free hypothesis marks the ids
for which the interpolated WHERE clause denotes this filter. -/
theorem student_scope_only_bound_learner
    (grades : List GradeRow) (sid : String) (_hq : quoteFree sid = true) :
    (∀ g ∈ student_overview_rows grades sid, g.user = sid) ∧
    (∀ g : GradeRow, g.user ≠ sid → g ∉ student_overview_rows grades sid) := by
  constructor
  · intro g hg
    simp [student_overview_rows, List.mem_filter] at hg
    exact hg.2.1
  · intro g hne hg
    simp [student_overview_rows, List.mem_filter] at hg
    exact hne hg.2.1

/-- Witness for C2 on a warehouse with two distinct learners: the other
learner's row is not surfaced. -/
theorem student_scope_only_bound_learner_witness :
    (⟨"u-bob", some 70⟩ : GradeRow) ∉ student_overview_rows demoGrades "u-alice" :=
  (student_scope_only_bound_learner demoGrades "u-alice" (by decide)).2 _ (by decide)

/-- C3: an unknown credential key makes verify_password return false,
and the login feedback is the generic invalid-credentials failure,
identical to the feedback for a wrong secret on a known key. -/
theorem unknown_key_fails_closed (email password : String)
    (h : USERS.lookup email = none) :
    verify_password email password = false ∧
    show_login_feedback initialSession email password =
      LoginFeedback.failure "Invalid email or password" ∧
    show_login_feedback initialSession email password =
      show_login_feedback initialSession "faculty@mind.edu" "wrong-secret" := by
  have hv : verify_password email password = false := by
    simp [verify_password, h]
  have hf : show_login_feedback initialSession email password =
      LoginFeedback.failure "Invalid email or password" := by
    simp [show_login_feedback, login, h]
  have hr : show_login_feedback initialSession "faculty@mind.edu" "wrong-secret" =
      LoginFeedback.failure "Invalid email or password" := by decide
  exact ⟨hv, hf, hf.trans hr.symm⟩

/-- Witness for C3 at a concrete unknown key. -/
theorem unknown_key_fails_closed_witness :
    verify_password "ghost@mind.edu" "mind2024" = false ∧
    show_login_feedback initialSession "ghost@mind.edu" "mind2024" =
      show_login_feedback initialSession "faculty@mind.edu" "wrong-secret" := by
  have h := unknown_key_fails_closed "ghost@mind.edu" "mind2024" (by decide)
  exact ⟨h.1, h.2.2⟩

/-- C4: can_access_page agrees exactly with the static role/page table,
and every page any role may access is also in the admin page set. -/
theorem can_access_matches_table :
    (∀ role page, can_access_page role page = true ↔ (role, page) ∈ ROLE_PAGE_TABLE) ∧
    (∀ role page, can_access_page role page = true → can_access_page "admin" page = true) :=
  ⟨can_access_page_iff, admin_superset_aux⟩

/-- Witness for C4 at a concrete role and page. -/
theorem can_access_matches_table_witness :
    can_access_page "faculty" "Faculty" = true ∧ can_access_page "admin" "Faculty" = true := by
  have h := can_access_matches_table
  have hf : can_access_page "faculty" "Faculty" = true :=
    (h.1 "faculty" "Faculty").2 (by decide)
  exact ⟨hf, h.2 "faculty" "Faculty" hf⟩

/-- Counterexample to C5 as stated: learner u1 has mean score 59.995,
strictly below the threshold 60, yet the roster is empty, because the
HAVING clause compares the ROUND(avg, 2) alias, which rounds 59.995 up
to 60. -/
theorem at_risk_boundary_cex :
    "u1" ∈ riskUsers.map (fun u => u.user_id) ∧
    meanScore riskGrades "u1" = some (11999/200) ∧
    (11999/200 : ℚ) < 60 ∧
    at_risk_roster riskUsers riskGrades 60 = [] := by
  refine ⟨by decide, ?_, by norm_num, ?_⟩
  · simp [meanScore, scoresOf, student_overview_rows, riskGrades]
    norm_num
  · simp [at_risk_roster, meanScore, scoresOf, student_overview_rows, bqRound2,
      riskUsers, riskGrades]
    norm_num

/-- C5 amended: the at-risk roster is exactly the set of learners whose
mean score rounded to two decimals is strictly below the threshold; for
a threshold fixed by that rounding (all integer slider values are), a
learner whose mean equals the threshold exactly is excluded. -/
theorem at_risk_roster_rounded (users : List UserRow) (grades : List GradeRow) (threshold : ℚ) :
    (∀ uid, uid ∈ at_risk_roster users grades threshold ↔
      (uid ∈ users.map (fun u => u.user_id) ∧
       ∃ m, meanScore grades uid = some m ∧ bqRound2 m < threshold)) ∧
    (bqRound2 threshold = threshold →
      ∀ uid, meanScore grades uid = some threshold →
        uid ∉ at_risk_roster users grades threshold) := by
  have key : ∀ uid, uid ∈ at_risk_roster users grades threshold ↔
      (uid ∈ users.map (fun u => u.user_id) ∧
       ∃ m, meanScore grades uid = some m ∧ bqRound2 m < threshold) := by
    intro uid
    rw [at_risk_roster, List.mem_filter]
    cases hm : meanScore grades uid with
    | none => simp [hm]
    | some m => simp [hm]
  refine ⟨key, fun hfix uid hmean hmem => ?_⟩
  obtain ⟨-, m, hm, hlt⟩ := (key uid).1 hmem
  rw [hmean, Option.some.injEq] at hm
  rw [← hm, hfix] at hlt
  exact lt_irrefl _ hlt

/-- Witness for C5 amended on the spec scenario with scores 55, 60, 65
and threshold 60: only the learner scoring 55 is on the roster and the
learner whose mean equals the threshold is excluded. -/
theorem at_risk_roster_rounded_witness :
    "uA" ∈ at_risk_roster scenUsers scenGrades 60 ∧
    "uB" ∉ at_risk_roster scenUsers scenGrades 60 := by
  have h := at_risk_roster_rounded scenUsers scenGrades 60
  have h55 : bqRound2 (55 : ℚ) = 55 := by
    have he := bqRound2_eval 55 5500 (by norm_num) (by norm_num) (by norm_num)
    rw [he]; norm_num
  have h60 : bqRound2 (60 : ℚ) = 60 := by
    have he := bqRound2_eval 60 6000 (by norm_num) (by norm_num) (by norm_num)
    rw [he]; norm_num
  constructor
  · refine (h.1 "uA").2 ⟨by decide, 55, ?_, by rw [h55]; norm_num⟩
    simp [meanScore, scoresOf, student_overview_rows, scenGrades]
  · refine h.2 h60 "uB" ?_
    simp [meanScore, scoresOf, student_overview_rows, scenGrades]

/-- Counterexample to C6 as stated: with means A:90, B:85, C:85 both
the list [uA, uB] and the list [uA, uC] are admissible outputs of the
top performers query at limit 2, since its ORDER BY has no secondary
key; so ties are not broken by ascending identifier and the ordered
result is not determined. -/
theorem top_performers_tie_cex :
    top_performers_admissible topUsers topGrades 2 ["uA", "uC"] ∧
    top_performers_admissible topUsers topGrades 2 ["uA", "uB"] ∧
    (["uA", "uC"] ≠ ["uA", "uB"]) :=
  ⟨⟨["uA", "uC", "uB"], by decide, sorted_top_acb, rfl⟩,
   ⟨["uA", "uB", "uC"], by decide, sorted_top_abc, rfl⟩,
   by decide⟩

/-- C6 amended: every admissible output of the top performers query is
sorted by rounded mean score descending and draws only from the grouped
learners; the order among equal means is not determined by the query. -/
theorem top_performers_sorted_desc (users : List UserRow) (grades : List GradeRow)
    (limit : Nat) (result : List String)
    (h : top_performers_admissible users grades limit result) :
    result.Sorted (fun a b => rounded_mean grades a ≥ rounded_mean grades b) ∧
    ∀ uid ∈ result, uid ∈ grouped_learners users grades := by
  obtain ⟨perm, hperm, hsorted, rfl⟩ := h
  refine ⟨List.Pairwise.sublist (List.take_sublist _ _) hsorted, fun uid hmem => ?_⟩
  exact hperm.mem_iff.mp (List.mem_of_mem_take hmem)

/-- Witness for C6 amended at a concrete admissible output. -/
theorem top_performers_sorted_desc_witness :
    List.Sorted (fun a b => rounded_mean topGrades a ≥ rounded_mean topGrades b) ["uA", "uB"] ∧
    ∀ uid ∈ (["uA", "uB"] : List String), uid ∈ grouped_learners topUsers topGrades :=
  top_performers_sorted_desc topUsers topGrades 2 ["uA", "uB"]
    ⟨["uA", "uB", "uC"], by decide, sorted_top_abc, rfl⟩

/-- C7: on a warehouse slice with no graded attempts the class average
query returns one row holding a NULL average, not an empty result, and
the metric renders that row through the numeric format path as nan
rather than as the N/A placeholder, contradicting the claim. -/
theorem null_class_average_rendered :
    class_average_result noGradedRows = [none] ∧
    (class_average_result noGradedRows).length = 1 ∧
    class_average_metric (some (class_average_result noGradedRows)) = "nan%" ∧
    ("nan%" : String) ≠ "N/A" := by decide

set_option maxRecDepth 10000 in
/-- C8: the trailing window of the time-series queries is emitted as a
string-interpolated INTERVAL literal inside the SQL text with an empty
parameter list, not as a parameterized boundary timestamp,
contradicting the claim. -/
theorem window_interval_interpolated :
    (submissions_window_query 30 "").params = [] ∧
    (∃ pre post, (submissions_window_query 30 "").sql = pre ++ "INTERVAL 30 DAY" ++ post) ∧
    (request_volume_query 30).params = [] ∧
    (∃ pre post, (request_volume_query 30).sql = pre ++ "INTERVAL 30 DAY" ++ post) := by
  refine ⟨rfl, ⟨?_, ?_, ?_⟩, rfl, ⟨?_, ?_, ?_⟩⟩
  · exact "SELECT COUNT(*) as count FROM `gen-lang-client-0625543859.mind_analytics.grades` g JOIN `gen-lang-client-0625543859.mind_analytics.user` u ON g.user = u.user_id WHERE g.timestamp >= TIMESTAMP_SUB(CURRENT_TIMESTAMP(), "
  · exact ") "
  · rfl
  · exact "SELECT COUNT(*) as count FROM `gen-lang-client-0625543859.mind_analytics.backend_telemetry` WHERE created_at >= TIMESTAMP_SUB(CURRENT_TIMESTAMP(), "
  · exact ")"
  · rfl

/-- C9: with no learner identifier bound to the session and two
learners available, the Student page resolves the first listed learner
and proceeds instead of rejecting, and it resolves that same first
learner even when the session carries a different bound id; there is no
opt-in flag guarding this fallback, contradicting the claim. -/
theorem student_demo_fallback :
    resolve_student_id none demoStudents = some "u-alice" ∧
    student_page_proceeds (resolve_student_id none demoStudents) = true ∧
    resolve_student_id (some "u-bob") demoStudents = some "u-alice" := by
  decide

/-- C10: a role outside the fixed role set yields the empty permission
record and is denied every page. -/
theorem unknown_role_denied (role : String)
    (h1 : role ≠ "admin") (h2 : role ≠ "developer")
    (h3 : role ≠ "faculty") (h4 : role ≠ "student") :
    get_user_permissions role = none ∧ ∀ page, can_access_page role page = false := by
  have hl := unknown_role_lookup role h1 h2 h3 h4
  refine ⟨hl, fun page => ?_⟩
  simp [can_access_page, hl, permission_pages]

/-- Witness for C10 at a concrete unknown role. -/
theorem unknown_role_denied_witness :
    get_user_permissions "superuser" = none ∧ can_access_page "superuser" "Admin" = false := by
  have h := unknown_role_denied "superuser" (by decide) (by decide) (by decide) (by decide)
  exact ⟨h.1, h.2 "Admin"⟩

end MindDash
